import Mathlib

/-! Shallow embedding of the AI finance-assistant client
    (frontend React components: App.js, Dashboard.js, Chatbot.js, and the
    auth-enabled App variant). JavaScript numbers are modelled as rationals,
    absent object fields as `none`, and JavaScript truthiness explicitly:
    an absent field, the empty string, the number 0, `false` and `null` are
    falsy; objects and arrays are always truthy. -/

/-- JavaScript `a || b` for optional string fields: the left value is kept
    when it is present and nonempty (truthy), else the default is used. -/
def jsStrOr (o : Option String) (d : String) : String :=
  match o with
  | none => d
  | some s => if s = "" then d else s

/-- JavaScript `a || b` for optional numeric fields: the left operand is kept
    when it is present and nonzero (truthy); otherwise the result is the
    right operand. -/
def orNum (a b : Option ℚ) : Option ℚ :=
  match a with
  | none => b
  | some q => if q = 0 then b else some q

/-- JavaScript truthiness of an optional string field, as a Bool
    (used by `Array.prototype.filter` callbacks). -/
def strTruthyB (o : Option String) : Bool :=
  match o with
  | none => false
  | some s => !(s = "")

/-- JavaScript truthiness of an optional boolean field (`!!x`). -/
def boolTruthyB (o : Option Bool) : Bool :=
  match o with
  | some true => true
  | _ => false

/-- Model of JavaScript `String.prototype.trim`: drop leading and trailing
    whitespace characters. -/
def jsTrim (s : String) : String :=
  String.mk (((s.toList.dropWhile Char.isWhitespace).reverse.dropWhile
    Char.isWhitespace).reverse)

/-- An optional string field is falsy in JavaScript: absent or empty. -/
def strFalsy (o : Option String) : Prop := o = none ∨ o = some ""

/-- An optional numeric field is falsy in JavaScript: absent or zero. -/
def numFalsy (o : Option ℚ) : Prop := o = none ∨ o = some 0

/-- Model of JavaScript `Number.prototype.toFixed(2)`: the amount in cents,
    rounded half-up, printed with exactly two decimal places. -/
def toFixed2 (q : ℚ) : String :=
  let c : Int := ⌊q * 100 + 1 / 2⌋
  let sign := if c < 0 then "-" else ""
  let n : Nat := c.natAbs
  let frac := n % 100
  sign ++ toString (n / 100) ++ "." ++
    (if frac < 10 then "0" ++ toString frac else toString frac)

/-- A field of a loosely-typed JSON payload that the client probes with
    `Array.isArray`: it may be absent, `null`, a string, some non-array
    object, or an array of `α`. -/
inductive JsField (α : Type) where
  | undef : JsField α
  | nullv : JsField α
  | strv (s : String) : JsField α
  | objv : JsField α
  | arr (xs : List α) : JsField α
  deriving DecidableEq

/-- JavaScript `Array.isArray`. -/
def isArrayJs {α : Type} : JsField α → Bool
  | .arr _ => true
  | _ => false

/-- Forecast payload (Dashboard.js): a union-shaped object whose totals come
    under several possible field names. `total_2week_forecast` is part of the
    payload vocabulary but is never read by the display code. -/
structure ForecastPayload where
  total_30day_forecast : Option ℚ
  total_4week_forecast : Option ℚ
  total_forecast : Option ℚ
  total_2week_forecast : Option ℚ
  avg_daily_forecast : Option ℚ
  historical_avg_daily : Option ℚ
  deriving DecidableEq

/-- Subscription payload (App.js / Dashboard.js): every field read with a
    fallback somewhere in the client. -/
structure Subscription where
  merchant : Option String
  name : Option String
  amount : Option ℚ
  price : Option ℚ
  frequency : Option String
  cadence : Option String
  contact_email : Option String
  email : Option String
  email_sent : Option Bool
  negotiation_email : Option String
  email_subject : Option String
  deriving DecidableEq

/-- Alert payload: either a plain string or a `{type, message}` object. -/
inductive Alert where
  | str (s : String) : Alert
  | obj (type : Option String) (message : Option String) : Alert
  deriving DecidableEq

/-- Email entry, as synthesized client-side in App.js `runFullAnalysis`. -/
structure Email where
  «to» : String
  subject : String
  body : String
  email_sent : Bool
  merchant : String
  deriving DecidableEq

/-- Transaction payload (Dashboard.js transactions section). -/
structure Transaction where
  name : Option String
  merchant_name : Option String
  description : Option String
  date : Option String
  amount : ℚ
  deriving DecidableEq

/-- Parsed body of a `/api/analyze_finances` response. The two forecast
    fields hold objects when present (objects are always truthy in
    JavaScript); `subscriptions`, `alerts` and `emails` are loosely typed
    and probed with `Array.isArray`. -/
structure AnalysisResponse where
  forecast : Option ForecastPayload
  forecast_results : Option ForecastPayload
  subscriptions : JsField Subscription
  alerts : JsField Alert
  emails : JsField Email
  deriving DecidableEq

/-- App.js line 30-33: `data.forecast || data.forecast_results || null`.
    Both fields are objects when present, hence truthy. -/
def normForecast (d : AnalysisResponse) : Option ForecastPayload :=
  match d.forecast with
  | some f => some f
  | none => d.forecast_results

/-- App.js line 38: `Array.isArray(data.subscriptions) ? data.subscriptions : []`. -/
def normSubscriptions (d : AnalysisResponse) : List Subscription :=
  match d.subscriptions with
  | .arr xs => xs
  | _ => []

/-- App.js line 41: `Array.isArray(data.alerts) ? data.alerts : []`. -/
def normAlerts (d : AnalysisResponse) : List Alert :=
  match d.alerts with
  | .arr xs => xs
  | _ => []

/-- App.js line 44: `Array.isArray(data.emails) ? data.emails : []`. -/
def topLevelEmails (d : AnalysisResponse) : List Email :=
  match d.emails with
  | .arr xs => xs
  | _ => []

/-- App.js line 46: the filter callback
    `s => s.negotiation_email || s.email_sent || s.contact_email`. -/
def subEmailTruthy (s : Subscription) : Bool :=
  strTruthyB s.negotiation_email || boolTruthyB s.email_sent ||
    strTruthyB s.contact_email

/-- App.js lines 47-53: the map callback building one synthesized email
    from a subscription. -/
def deriveEmail (s : Subscription) : Email :=
  { «to» := jsStrOr s.contact_email "Not found"
    subject := jsStrOr s.email_subject "Subscription Discount Request"
    body := jsStrOr s.negotiation_email ""
    email_sent := boolTruthyB s.email_sent
    merchant := jsStrOr s.merchant (jsStrOr s.name "Unknown") }

/-- App.js lines 44-54: `setEmails([...topLevelEmails, ...fromSubs])`. -/
def deriveEmails (d : AnalysisResponse) : List Email :=
  topLevelEmails d ++ ((normSubscriptions d).filter subEmailTruthy).map deriveEmail

/-- Component state of App.js that `runFullAnalysis` can touch. -/
structure AppState where
  forecast : Option ForecastPayload
  subscriptions : List Subscription
  alerts : List Alert
  emails : List Email
  loadingAnalysis : Bool
  analysisError : Option String
  deriving DecidableEq

/-- Outcome of the `fetch` + `res.json()` pair in `runFullAnalysis`:
    either a parsed response, or a network/parse failure (the `catch` arm). -/
inductive FetchResult where
  | success (data : AnalysisResponse)
  | failure
  deriving DecidableEq

/-- App.js lines 17-62 `runFullAnalysis` as a state transition. On success
    all four slices are replaced and the error is cleared; on any failure
    only the error string is set; the `finally` arm clears the loading flag
    on both paths. -/
def runFullAnalysis (st : AppState) (r : FetchResult) : AppState :=
  match r with
  | .success d =>
      { st with
        forecast := normForecast d
        subscriptions := normSubscriptions d
        alerts := normAlerts d
        emails := deriveEmails d
        loadingAnalysis := false
        analysisError := none }
  | .failure =>
      { st with
        loadingAnalysis := false
        analysisError := some "Failed to run analysis." }

/-- Dashboard.js lines 191-192:
    `(forecast && (forecast.total_30day_forecast || forecast.total_4week_forecast || forecast.total_forecast)) || 0`,
    for a present (truthy) forecast object. -/
def totalForecast (f : ForecastPayload) : ℚ :=
  (orNum (orNum f.total_30day_forecast f.total_4week_forecast)
    f.total_forecast).getD 0

/-- Dashboard.js line 252: `${Number(totalForecast).toFixed(2)}`. -/
def displayedTotal (f : ForecastPayload) : String :=
  "$" ++ toFixed2 (totalForecast f)

/-- Spec-side reading of the forecast-total rule: the first field value in
    the list that is present and truthy (nonzero). -/
def firstTruthyNum : List (Option ℚ) → Option ℚ
  | [] => none
  | none :: rest => firstTruthyNum rest
  | some q :: rest => if q = 0 then firstTruthyNum rest else some q

/-- Outcome of the `/api/send_email` call in `handleSendEmail`
    (auth-enabled App variant): parsed `{success, error}` or a thrown error. -/
inductive SendResult where
  | success
  | failed (err : String)
  | networkError
  deriving DecidableEq

/-- `handleSendEmail`, success branch (auth-enabled App variant):
    `prevSubs.map(sub => sub.merchant === emailData.merchant ? {...sub, email_sent: true} : sub)`.
    On a non-success outcome the subscription list is untouched. -/
def handleSendEmail (subs : List Subscription) (merchant : String)
    (r : SendResult) : List Subscription :=
  match r with
  | .success =>
      subs.map fun sub =>
        if sub.merchant = some merchant then { sub with email_sent := some true }
        else sub
  | _ => subs

/-- Dashboard.js line 380:
    `tx.name || tx.merchant_name || tx.description || 'Unknown'`. -/
def txTitle (t : Transaction) : String :=
  jsStrOr t.name (jsStrOr t.merchant_name (jsStrOr t.description "Unknown"))

/-- Dashboard.js line 379: `transactions.slice(0, 10)`. -/
def renderedTransactions (txs : List Transaction) : List Transaction :=
  txs.take 10

/-- A chat turn: `{type: 'user'|'bot', text}`. -/
inductive MsgType where
  | user
  | bot
  deriving DecidableEq

/-- One entry of the Chatbot message list. -/
structure ChatMessage where
  type : MsgType
  text : String
  deriving DecidableEq

/-- Chatbot.js component state touched by `sendMessage`. -/
structure ChatState where
  messages : List ChatMessage
  input : String
  loading : Bool
  deriving DecidableEq

/-- Parsed body of a `/api/chat` response: `{response}` or `{error}`. -/
structure ChatResponse where
  response : Option String
  error : Option String
  deriving DecidableEq

/-- Outcome of the chat fetch: a parsed reply, or a thrown
    network/parse error (the `catch` arm). -/
inductive ChatOutcome where
  | reply (data : ChatResponse)
  | failure
  deriving DecidableEq

/-- Chatbot.js line 30 fallback text. -/
def chatFallbackText : String := "Sorry, I couldn\x27t process that request."

/-- Chatbot.js line 37 generic apology appended on a thrown error. -/
def chatErrorText : String := "Sorry, there was an error processing your request."

/-- Chatbot.js line 30: `data.response || data.error || fallback`. -/
def botText : ChatOutcome → String
  | .reply d => jsStrOr d.response (jsStrOr d.error chatFallbackText)
  | .failure => chatErrorText

/-- Chatbot.js lines 10-43 `sendMessage` as a state transition. The guard
    `if (!input.trim()) return` makes blank input a no-op; otherwise the
    user turn and exactly one bot turn are appended, the input is cleared
    and the loading flag ends false. The Bool records whether a request
    was issued. -/
def sendMessage (st : ChatState) (out : ChatOutcome) : ChatState × Bool :=
  if jsTrim st.input = "" then (st, false)
  else
    ({ messages := st.messages ++ [⟨.user, st.input⟩, ⟨.bot, botText out⟩]
       input := ""
       loading := false }, true)

/-- Authentication-related state of the auth-enabled App variant:
    the persisted local-storage token, the in-memory token and session,
    and any user-visible message this flow would produce. -/
structure AuthState where
  localStorageAuthToken : Option String
  authToken : Option String
  user : Option String
  accessToken : Option String
  userVisibleMessage : Option String
  deriving DecidableEq

/-- Outcome of the link-token validation fetch at startup. -/
inductive ValidateResult where
  | status401
  | ok
  | networkError
  deriving DecidableEq

/-- `validateToken` (auth-enabled App variant): no stored token (or a falsy
    empty one) is a no-op; a 401 removes the stored token silently; any
    other status installs the token in memory; a thrown error removes the
    stored token. No branch produces a user-visible message. -/
def validateToken (st : AuthState) (r : ValidateResult) : AuthState :=
  match st.localStorageAuthToken with
  | none => st
  | some tok =>
      if tok = "" then st
      else
        match r with
        | .status401 => { st with localStorageAuthToken := none }
        | .ok => { st with authToken := some tok }
        | .networkError => { st with localStorageAuthToken := none }

/-- `handleLogout` (auth-enabled App variant): clears the stored token and
    the in-memory session. -/
def handleLogout (st : AuthState) : AuthState :=
  { st with
    localStorageAuthToken := none
    authToken := none
    user := none
    accessToken := none }

/-! Concrete payloads used by witnesses and counterexamples. -/

/-- A subscription with every field absent. -/
def emptySub : Subscription :=
  ⟨none, none, none, none, none, none, none, none, none, none, none⟩

/-- A forecast payload with every field absent. -/
def emptyForecast : ForecastPayload := ⟨none, none, none, none, none, none⟩

/-- A transaction with only an amount. -/
def emptyTx : Transaction := ⟨none, none, none, none, 0⟩

/-- Forecast payload carrying only `total_2week_forecast`. -/
def fcOnly2Week : ForecastPayload :=
  { emptyForecast with total_2week_forecast := some 50 }

/-- Forecast payload carrying only `total_4week_forecast`. -/
def fcW : ForecastPayload :=
  { emptyForecast with total_4week_forecast := some 50 }

/-- The model of `toFixed(2)` prints a zero amount as `0.00`. -/
theorem toFixed2_zero : toFixed2 0 = "0.00" := by
  have h : ⌊(0 : ℚ) * 100 + 1 / 2⌋ = 0 := by
    rw [Int.floor_eq_iff]
    norm_num
  simp only [toFixed2, h]
  decide

/-- The model of `toFixed(2)` prints 50 as `50.00`. -/
theorem toFixed2_fifty : toFixed2 50 = "50.00" := by
  have h : ⌊(50 : ℚ) * 100 + 1 / 2⌋ = 5000 := by
    rw [Int.floor_eq_iff]
    norm_num
  simp only [toFixed2, h]
  decide

/-- C1 counterexample: the claim lists `total_2week_forecast` as the last
    fallback, but Dashboard.js lines 191-192 never read that field; a payload
    carrying only `total_2week_forecast = 50` displays `$0.00`, while the
    claim predicts `$50.00`. -/
theorem c1_counterexample :
    fcOnly2Week.total_30day_forecast = none ∧
    fcOnly2Week.total_4week_forecast = none ∧
    fcOnly2Week.total_forecast = none ∧
    fcOnly2Week.total_2week_forecast = some 50 ∧
    displayedTotal fcOnly2Week = "$0.00" ∧ "$0.00" ≠ "$50.00" := by
  refine ⟨rfl, rfl, rfl, rfl, ?_, ?_⟩
  · have ht : totalForecast fcOnly2Week = 0 := rfl
    simp only [displayedTotal, ht, toFixed2_zero]
    decide
  · decide

/-- C1 (amended): the displayed forecast total is read from the first
    present-and-nonzero of `total_30day_forecast`, `total_4week_forecast`,
    `total_forecast` (the code never reads `total_2week_forecast`); in
    particular, when `total_30day_forecast` is absent or zero and
    `total_4week_forecast` is present and nonzero the displayed total equals
    the latter, and when all three consulted fields are absent the displayed
    total is `$0.00`. -/
theorem c1_forecast_total (f : ForecastPayload) :
    displayedTotal f =
      "$" ++ toFixed2 ((firstTruthyNum
        [f.total_30day_forecast, f.total_4week_forecast,
          f.total_forecast]).getD 0) ∧
    (numFalsy f.total_30day_forecast →
      ∀ q, f.total_4week_forecast = some q → q ≠ 0 →
        displayedTotal f = "$" ++ toFixed2 q) ∧
    (f.total_30day_forecast = none → f.total_4week_forecast = none →
      f.total_forecast = none → displayedTotal f = "$0.00") := by
  refine ⟨?_, ?_, ?_⟩
  · obtain ⟨t30, t4w, tf, t2w, ad, ha⟩ := f
    rcases t30 with _ | q1 <;> rcases t4w with _ | q2 <;> rcases tf with _ | q3 <;>
      simp only [displayedTotal, totalForecast, orNum, firstTruthyNum] <;>
      split_ifs <;> simp_all [firstTruthyNum]
  · rintro (h | h) q h4 hq <;>
      simp_all [displayedTotal, totalForecast, orNum]
  · intro h1 h2 h3
    simp only [displayedTotal, totalForecast, h1, h2, h3]
    rw [show (orNum (orNum none none) none).getD 0 = (0 : ℚ) from rfl,
      toFixed2_zero]
    decide

/-- C1 witness: a payload with only `total_4week_forecast = 50` displays
    `$50.00`. -/
theorem c1_witness : displayedTotal fcW = "$50.00" := by
  have h := (c1_forecast_total fcW).2.1 (Or.inl rfl) 50 rfl (by norm_num)
  rw [h, toFixed2_fifty]
  decide

/-- C3: any network or parse failure of the full-analysis orchestrator sets
    the single error string, clears the loading flag, and leaves the
    previously held forecast, subscriptions and alerts untouched. -/
theorem c3_failure_no_rollback (st : AppState) :
    (runFullAnalysis st .failure).analysisError = some "Failed to run analysis." ∧
    (runFullAnalysis st .failure).loadingAnalysis = false ∧
    (runFullAnalysis st .failure).forecast = st.forecast ∧
    (runFullAnalysis st .failure).subscriptions = st.subscriptions ∧
    (runFullAnalysis st .failure).alerts = st.alerts :=
  ⟨rfl, rfl, rfl, rfl, rfl⟩

/-- C5: a non-array `subscriptions` or `alerts` field normalizes to the
    empty list (the normalization is a total function, so no error is
    raised), and an array value is taken as-is with no per-item
    validation. -/
theorem c5_array_coercion (d : AnalysisResponse) :
    (isArrayJs d.subscriptions = false → normSubscriptions d = []) ∧
    (isArrayJs d.alerts = false → normAlerts d = []) ∧
    (∀ xs, d.subscriptions = .arr xs → normSubscriptions d = xs) ∧
    (∀ xs, d.alerts = .arr xs → normAlerts d = xs) := by
  refine ⟨?_, ?_, ?_, ?_⟩
  · intro h
    unfold normSubscriptions
    cases hs : d.subscriptions <;> simp_all [isArrayJs]
  · intro h
    unfold normAlerts
    cases hs : d.alerts <;> simp_all [isArrayJs]
  · intro xs h
    simp [normSubscriptions, h]
  · intro xs h
    simp [normAlerts, h]

/-- Analysis response whose `subscriptions` field is JSON `null` and whose
    `alerts` field is a singleton array. -/
def respC5 : AnalysisResponse :=
  ⟨none, none, .nullv, .arr [Alert.str "Overspending detected"], .undef⟩

/-- C5 witness: a `null` subscriptions field yields the empty list while an
    array alerts field is taken as-is. -/
theorem c5_witness :
    normSubscriptions respC5 = [] ∧
    normAlerts respC5 = [Alert.str "Overspending detected"] :=
  ⟨(c5_array_coercion respC5).1 rfl,
   (c5_array_coercion respC5).2.2.2 [Alert.str "Overspending detected"] rfl⟩

/-- C6: the normalized forecast slice is the first present of the fields
    `forecast` and `forecast_results`, and null (none) when neither is
    present. -/
theorem c6_forecast_normalization (d : AnalysisResponse) :
    (∀ f, d.forecast = some f → normForecast d = some f) ∧
    (d.forecast = none →
      ∀ f, d.forecast_results = some f → normForecast d = some f) ∧
    (d.forecast = none → d.forecast_results = none → normForecast d = none) := by
  refine ⟨?_, ?_, ?_⟩
  · intro f h
    simp [normForecast, h]
  · intro h f h2
    simp [normForecast, h, h2]
  · intro h h2
    simp [normForecast, h, h2]

/-- Analysis response carrying only `forecast_results`. -/
def respC6 : AnalysisResponse := ⟨none, some fcW, .undef, .undef, .undef⟩

/-- C6 witness: with `forecast` absent, `forecast_results` is used. -/
theorem c6_witness : normForecast respC6 = some fcW :=
  (c6_forecast_normalization respC6).2.1 rfl fcW rfl

/-- Subscription whose only truthy email-related field is `email_sent`. -/
def subOnlySent : Subscription := { emptySub with email_sent := some true }

/-- Analysis response with no `emails` field and one subscription carrying
    only `email_sent = true`. -/
def respOnlySent : AnalysisResponse :=
  ⟨none, none, .arr [subOnlySent], .undef, .undef⟩

/-- C2 counterexample: App.js line 46 filters on
    `s.negotiation_email || s.email_sent || s.contact_email`, so a
    subscription with neither a negotiation email nor a contact email but a
    truthy `email_sent` still synthesizes an email entry, contradicting
    "exactly from the subscriptions having a negotiation email or contact
    email" (which would yield the empty list here). -/
theorem c2_counterexample :
    subOnlySent.negotiation_email = none ∧
    subOnlySent.contact_email = none ∧
    deriveEmails respOnlySent ≠ [] := by
  refine ⟨rfl, rfl, ?_⟩
  decide

/-- C2 (amended): for every analysis response that carries no top-level
    emails array, the email list is synthesized exactly from the
    subscriptions whose negotiation email, `email_sent` flag, or contact
    email is truthy. -/
theorem c2_email_synthesis (d : AnalysisResponse)
    (h : isArrayJs d.emails = false) :
    deriveEmails d =
      ((normSubscriptions d).filter subEmailTruthy).map deriveEmail := by
  have ht : topLevelEmails d = [] := by
    unfold topLevelEmails
    cases he : d.emails <;> simp_all [isArrayJs]
  simp [deriveEmails, ht]

/-- The Netflix subscription from the claim. -/
def netflixSub : Subscription :=
  { emptySub with
    merchant := some "Netflix"
    negotiation_email := some "Dear Netflix..."
    contact_email := some "billing@netflix.com" }

/-- Analysis response with no `emails` field and the Netflix subscription. -/
def netflixResp : AnalysisResponse :=
  ⟨none, none, .arr [netflixSub], .undef, .undef⟩

/-- C2 witness: the Netflix response derives exactly one email entry with
    the claimed recipient, default subject, body and `email_sent = false`. -/
theorem c2_witness :
    deriveEmails netflixResp =
      [⟨"billing@netflix.com", "Subscription Discount Request",
        "Dear Netflix...", false, "Netflix"⟩] := by
  rw [c2_email_synthesis netflixResp rfl]
  decide

/-- C4: after a send-email call reporting `success = true`, exactly the
    subscriptions whose `merchant` field is string-equal (case-sensitive) to
    the dispatched merchant string get `email_sent = true` (no other field
    changes), and every other subscription is returned unchanged; the list
    length is preserved. -/
theorem c4_send_email_flip (subs : List Subscription) (m : String) (i : Nat)
    (sub : Subscription) (h : subs[i]? = some sub) :
    (handleSendEmail subs m .success).length = subs.length ∧
    (sub.merchant = some m →
      (handleSendEmail subs m .success)[i]? =
        some { sub with email_sent := some true }) ∧
    (sub.merchant ≠ some m →
      (handleSendEmail subs m .success)[i]? = some sub) := by
  refine ⟨?_, ?_, ?_⟩
  · simp [handleSendEmail]
  · intro hm
    simp [handleSendEmail, List.getElem?_map, h, hm]
  · intro hm
    simp [handleSendEmail, List.getElem?_map, h, hm]

/-- Subscription whose merchant is exactly `Netflix`. -/
def subNetflix : Subscription := { emptySub with merchant := some "Netflix" }

/-- Subscription whose merchant differs from `Netflix` only in case. -/
def subLowercase : Subscription := { emptySub with merchant := some "netflix" }

/-- C4 witness: dispatching to merchant `Netflix` flips the exactly-matching
    subscription and leaves the differently-cased one unchanged. -/
theorem c4_witness :
    (handleSendEmail [subNetflix, subLowercase] "Netflix" .success)[0]? =
      some { subNetflix with email_sent := some true } ∧
    (handleSendEmail [subNetflix, subLowercase] "Netflix" .success)[1]? =
      some subLowercase :=
  ⟨(c4_send_email_flip [subNetflix, subLowercase] "Netflix" 0 subNetflix
      rfl).2.1 rfl,
   (c4_send_email_flip [subNetflix, subLowercase] "Netflix" 1 subLowercase
      rfl).2.2 (by decide)⟩

/-- Chat response whose `response` field is present but empty. -/
def chatRespEmptyResp : ChatResponse := ⟨some "", some "Backend error"⟩

/-- C7 counterexample: Chatbot.js line 30 uses JavaScript `||`, which skips
    a present-but-empty `response`; with `response = ""` and
    `error = "Backend error"` the appended bot text is the error string, not
    the (present) response field the claim prescribes. -/
theorem c7_counterexample :
    chatRespEmptyResp.response = some "" ∧
    botText (.reply chatRespEmptyResp) = "Backend error" ∧
    "Backend error" ≠ "" := by
  refine ⟨rfl, ?_, ?_⟩ <;> decide

/-- C7 (amended): for every chat exchange (nonblank input), the user turn is
    appended followed by exactly one bot turn whose text is the backend
    `response` if present and nonempty, else the backend `error` if present
    and nonempty, else the generic fallback; a thrown request failure appends
    the generic apology text; the message list is append-only (the new list
    is the old list plus exactly the two new turns) and the request is
    issued. -/
theorem c7_chat_exchange (st : ChatState) (out : ChatOutcome)
    (h : jsTrim st.input ≠ "") :
    (sendMessage st out).1.messages =
      st.messages ++ [⟨.user, st.input⟩, ⟨.bot, botText out⟩] ∧
    (sendMessage st out).2 = true ∧
    (sendMessage st out).1.loading = false ∧
    (∀ d s, out = .reply d → d.response = some s → s ≠ "" → botText out = s) ∧
    (∀ d s, out = .reply d → strFalsy d.response → d.error = some s → s ≠ "" →
      botText out = s) ∧
    (∀ d, out = .reply d → strFalsy d.response → strFalsy d.error →
      botText out = chatFallbackText) ∧
    (out = .failure → botText out = chatErrorText) := by
  refine ⟨?_, ?_, ?_, ?_, ?_, ?_, ?_⟩
  · simp [sendMessage, h]
  · simp [sendMessage, h]
  · simp [sendMessage, h]
  · rintro d s rfl hr hs
    simp [botText, jsStrOr, hr, hs]
  · rintro d s rfl (hr | hr) he hs <;> simp [botText, jsStrOr, hr, he, hs]
  · rintro d rfl (hr | hr) (he | he) <;> simp [botText, jsStrOr, hr, he]
  · rintro rfl
    rfl

/-- Chat state with an empty history and the pending input `hello`. -/
def chatStW : ChatState := ⟨[], "hello", false⟩

/-- Successful chat response `Hi there`. -/
def chatRespW : ChatResponse := ⟨some "Hi there", none⟩

/-- C7 witness: sending `hello` with a reply `Hi there` appends the user
    turn and exactly one bot turn. -/
theorem c7_witness :
    (sendMessage chatStW (.reply chatRespW)).1.messages =
      [⟨.user, "hello"⟩, ⟨.bot, "Hi there"⟩] := by
  have h := c7_chat_exchange chatStW (.reply chatRespW) (by decide)
  rw [h.1]
  decide

/-- Transaction whose `name` is present but empty. -/
def txEmptyName : Transaction := ⟨some "", some "Spotify", none, none, 10⟩

/-- C8 counterexample: Dashboard.js line 380 uses JavaScript `||`, which
    skips a present-but-empty `name`; the displayed title for
    `{name: "", merchant_name: "Spotify"}` is `Spotify`, not the (present)
    `name` field the claim prescribes. -/
theorem c8_counterexample :
    txEmptyName.name = some "" ∧
    txTitle txEmptyName = "Spotify" ∧ "Spotify" ≠ "" := by
  refine ⟨rfl, ?_, ?_⟩ <;> decide

/-- C8 (amended): the client renders at most the first 10 transactions in
    received order (the rendered list is a prefix of the received list,
    which is not mutated), and each transaction's display title is the
    first present-and-nonempty of `name`, `merchant_name`, `description`
    (falling back to `Unknown`). -/
theorem c8_transactions (txs : List Transaction) (t : Transaction) :
    (renderedTransactions txs).length ≤ 10 ∧
    renderedTransactions txs ++ txs.drop 10 = txs ∧
    (∀ s, t.name = some s → s ≠ "" → txTitle t = s) ∧
    (strFalsy t.name → ∀ s, t.merchant_name = some s → s ≠ "" →
      txTitle t = s) ∧
    (strFalsy t.name → strFalsy t.merchant_name →
      ∀ s, t.description = some s → s ≠ "" → txTitle t = s) ∧
    (strFalsy t.name → strFalsy t.merchant_name → strFalsy t.description →
      txTitle t = "Unknown") := by
  refine ⟨?_, ?_, ?_, ?_, ?_, ?_⟩
  · simp only [renderedTransactions, List.length_take]
    exact min_le_left 10 txs.length
  · exact List.take_append_drop 10 txs
  · intro s hs hne
    simp [txTitle, jsStrOr, hs, hne]
  · rintro (h | h) s hs hne <;> simp [txTitle, jsStrOr, h, hs, hne]
  · rintro (h | h) (h2 | h2) s hs hne <;>
      simp [txTitle, jsStrOr, h, h2, hs, hne]
  · rintro (h | h) (h2 | h2) (h3 | h3) <;>
      simp [txTitle, jsStrOr, h, h2, h3]

/-- A transaction titled by its `name` field. -/
def txNamed : Transaction := ⟨some "Coffee", none, none, none, 4⟩

/-- C8 witness: of 12 received transactions at most 10 are rendered, as a
    prefix of the received list, and a transaction named `Coffee` is titled
    `Coffee`. -/
theorem c8_witness :
    (renderedTransactions (List.replicate 12 txNamed)).length ≤ 10 ∧
    renderedTransactions (List.replicate 12 txNamed) ++
      (List.replicate 12 txNamed).drop 10 = List.replicate 12 txNamed ∧
    txTitle txNamed = "Coffee" := by
  have h := c8_transactions (List.replicate 12 txNamed) txNamed
  exact ⟨h.1, h.2.1, h.2.2.1 "Coffee" rfl (by decide)⟩

/-- C9: when the startup link-token check returns 401, the persisted token
    is removed, the in-memory auth token is left unset, and no user-visible
    message is produced; logout likewise clears the token. -/
theorem c9_silent_token_reset (st : AuthState) (tok : String)
    (h1 : st.localStorageAuthToken = some tok) (h2 : tok ≠ "") :
    (validateToken st .status401).localStorageAuthToken = none ∧
    (validateToken st .status401).authToken = st.authToken ∧
    (validateToken st .status401).userVisibleMessage = st.userVisibleMessage ∧
    (handleLogout st).localStorageAuthToken = none ∧
    (handleLogout st).authToken = none := by
  refine ⟨?_, ?_, ?_, rfl, rfl⟩ <;> simp [validateToken, h1, h2]

/-- Auth state holding only a persisted token. -/
def authStW : AuthState := ⟨some "tok123", none, none, none, none⟩

/-- C9 witness: a 401 on validating the stored token `tok123` clears the
    stored token silently and logout clears it too. -/
theorem c9_witness :
    (validateToken authStW .status401).localStorageAuthToken = none ∧
    (validateToken authStW .status401).authToken = none ∧
    (handleLogout authStW).localStorageAuthToken = none := by
  have h := c9_silent_token_reset authStW "tok123" rfl (by decide)
  exact ⟨h.1, h.2.1.trans rfl, h.2.2.2.1⟩

/-- C10: a blank (empty or whitespace-only) chat input makes send a no-op:
    no request is issued and the state (messages, input, loading flag) is
    returned unchanged, so a false loading flag stays false. -/
theorem c10_blank_input_noop (st : ChatState) (out : ChatOutcome)
    (h : jsTrim st.input = "") :
    sendMessage st out = (st, false) ∧
    (sendMessage st out).1.messages = st.messages ∧
    (sendMessage st out).1.input = st.input ∧
    (st.loading = false → (sendMessage st out).1.loading = false) := by
  have hs : sendMessage st out = (st, false) := by simp [sendMessage, h]
  exact ⟨hs, by rw [hs], by rw [hs], fun hl => by rw [hs]; exact hl⟩

/-- Chat state whose pending input is whitespace-only. -/
def chatStBlank : ChatState := ⟨[⟨.bot, "Hi"⟩], "   ", false⟩

/-- C10 witness: sending with whitespace-only input issues no request and
    leaves the state unchanged. -/
theorem c10_witness :
    sendMessage chatStBlank .failure = (chatStBlank, false) :=
  (c10_blank_input_noop chatStBlank .failure (by decide)).1
